import Mathlib

/- Verification of the CalendarUtils date-conversion engine (shared-utils.js).

   The JavaScript source operates on ECMAScript Date values.  We model a Date
   value by its time value measured in whole days since 1970-01-01 (all dates
   constructed by the source are local midnights, and we model a fixed-offset
   time zone, so day arithmetic is exact).  `daysFromCivil` models the
   ECMAScript MakeDay computation on the proleptic Gregorian calendar, and
   `dateYear`/`dateMonth`/`dateDay` model the YearFromTime / MonthFromTime /
   DateFromTime getters (ECMAScript specifies these behaviorally: they recover
   the civil date of a day number; `getters_daysFromCivil` below proves our
   formulas do exactly that).  Every division below is by a positive literal,
   where Int's `/` (Euclidean division) agrees with the mathematical floor
   division that ECMAScript prescribes.

   JavaScript's `%` on integers is truncated remainder (sign of the dividend);
   it is modelled by `Int.tmod`.  `Math.floor(a / k)` for a positive integer
   literal k is modelled by `a / k` on Int. -/

/-- Shifted year: the civil year starting March 1 (Jan/Feb belong to the
previous shifted year), used by the day-count formulas. -/
def shiftedY (y m : Int) : Int := if m ≤ 2 then y - 1 else y

/-- 400-year era of the shifted year. -/
def dfcEra (y m : Int) : Int := shiftedY y m / 400

/-- Year of era (0..399) of the shifted year. -/
def dfcYoe (y m : Int) : Int := shiftedY y m - dfcEra y m * 400

/-- Month shifted so that March = 0, ..., February = 11 (m is 1-indexed). -/
def dfcMp (m : Int) : Int := if 2 < m then m - 3 else m + 9

/-- Day of the shifted year (0-based) of day d of 1-indexed month m. -/
def dfcDoy (m d : Int) : Int := (153 * dfcMp m + 2) / 5 + d - 1

/-- Days since 1970-01-01 of the proleptic Gregorian date (y, m ∈ [1,12], d).
    Linear in d, so it normalizes out-of-range day numbers exactly like
    ECMAScript MakeDay does. -/
def daysFromCivil (y m d : Int) : Int :=
  dfcEra y m * 146097 +
    (dfcYoe y m * 365 + dfcYoe y m / 4 - dfcYoe y m / 100 + dfcDoy m d) - 719468

/-- 400-year era containing epoch day z. -/
def eraOf (z : Int) : Int := (z + 719468) / 146097

/-- Day of era (0..146096) of epoch day z. -/
def doeOf (z : Int) : Int := (z + 719468) - eraOf z * 146097

/-- Year of era (0..399) of epoch day z, via century extraction. -/
def yoeOf (z : Int) : Int :=
  let doe := doeOf z
  let cen := (4 * doe + 3) / 146097
  100 * cen + (4 * (doe - 36524 * cen) + 3) / 1461

/-- Day of the shifted year (0..365) of epoch day z. -/
def doyOf (z : Int) : Int := doeOf z - (365 * yoeOf z + yoeOf z / 4 - yoeOf z / 100)

/-- Shifted month (March = 0, ..., February = 11) of epoch day z. -/
def mpOf (z : Int) : Int := (5 * doyOf z + 2) / 153

/-- Month (1..12) of the date z days after 1970-01-01 (models MonthFromTime + 1). -/
def dateMonth (z : Int) : Int := if mpOf z < 10 then mpOf z + 3 else mpOf z - 9

/-- Day of month of the date z days after 1970-01-01 (models DateFromTime). -/
def dateDay (z : Int) : Int := doyOf z - (153 * mpOf z + 2) / 5 + 1

/-- Year of the date z days after 1970-01-01 (models YearFromTime). -/
def dateYear (z : Int) : Int :=
  (if dateMonth z ≤ 2 then 1 else 0) + (yoeOf z + eraOf z * 400)

/-- 1 if y is a Gregorian leap year, else 0 (model-side definition, via
Euclidean mod; the source's Bool predicate is related to it later). -/
def leapTerm (y : Int) : Int :=
  if y % 4 = 0 ∧ (y % 100 ≠ 0 ∨ y % 400 = 0) then 1 else 0

/-- Length of 1-indexed month m in year y. -/
def monthLen (y m : Int) : Int :=
  if m = 2 then 28 + leapTerm y
  else if m = 4 ∨ m = 6 ∨ m = 9 ∨ m = 11 then 30 else 31

/- Arithmetic extraction lemmas for the getter computations, stated over fresh
   variables so that `omega` works in a minimal context. -/

theorem era_extract (era doe : Int) (h0 : 0 ≤ doe) (h1 : doe ≤ 146096) :
    (era * 146097 + doe - 719468 + 719468) / 146097 = era ∧
      (era * 146097 + doe - 719468 + 719468) - era * 146097 = doe := by
  omega

theorem cen_extract (doe cen x q doy : Int) (hdoe : doe = 36524 * cen + 365 * x + q + doy)
    (hc1 : 0 ≤ cen) (hc2 : cen ≤ 3) (hx1 : 0 ≤ x) (hx2 : x ≤ 99)
    (hq1 : 0 ≤ q) (hq2 : 4 * q ≤ x) (hq3 : x ≤ 4 * q + 3)
    (hd1 : 0 ≤ doy) (hd2 : doy ≤ 365) (hleap : doy ≤ 364 ∨ x ≤ 98 ∨ cen = 3) :
    (4 * doe + 3) / 146097 = cen := by
  omega

theorem x_extract (doe cen x q doy : Int) (hdoe : doe = 36524 * cen + 365 * x + q + doy)
    (hx1 : 0 ≤ x) (hx2 : x ≤ 99)
    (hq1 : 0 ≤ q) (hq2 : 4 * q ≤ x) (hq3 : x ≤ 4 * q + 3)
    (hd1 : 0 ≤ doy) (hd2 : doy ≤ 365) (hleap : doy ≤ 364 ∨ x = 4 * q + 3) :
    (4 * (doe - 36524 * cen) + 3) / 1461 = x := by
  omega

theorem mp_extract (mp t doy d : Int) (hmp1 : 0 ≤ mp) (hmp2 : mp ≤ 11)
    (ht1 : 5 * t ≤ 153 * mp + 2) (ht2 : 153 * mp + 2 ≤ 5 * t + 4)
    (hdoy : doy = t + d - 1) (hd1 : 1 ≤ d)
    (h31 : d ≤ 31) (h29 : mp = 11 → d ≤ 29)
    (h30 : mp = 1 ∨ mp = 3 ∨ mp = 6 ∨ mp = 8 → d ≤ 30) :
    (5 * doy + 2) / 153 = mp := by
  interval_cases mp <;> omega

theorem doy_bounds (m d t mp cen x w : Int)
    (hm1 : 1 ≤ m) (hm2 : m ≤ 12) (hd1 : 1 ≤ d)
    (hmpb : (2 < m ∧ mp = m - 3) ∨ (m ≤ 2 ∧ mp = m + 9))
    (ht1 : 5 * t ≤ 153 * mp + 2) (ht2 : 153 * mp + 2 ≤ 5 * t + 4)
    (hw : m ≤ 2 → ∃ e, w = 400 * e + cen * 100 + x + 1)
    (hcb1 : 0 ≤ cen) (hcb2 : cen ≤ 3) (hxb1 : 0 ≤ x) (hxb2 : x ≤ 99)
    (hd2 : d ≤ if m = 2 then 28 + (if w % 4 = 0 ∧ (w % 100 ≠ 0 ∨ w % 400 = 0) then 1 else 0)
          else if m = 4 ∨ m = 6 ∨ m = 9 ∨ m = 11 then 30 else 31) :
    0 ≤ t + d - 1 ∧ t + d - 1 ≤ 365 ∧
      (t + d - 1 ≤ 364 ∨ (x = 4 * (x / 4) + 3 ∧ (x ≤ 98 ∨ cen = 3))) := by
  rcases hmpb with ⟨h3, hmp'⟩ | ⟨h3, hmp'⟩
  · refine ⟨by omega, by split_ifs at hd2 <;> omega, Or.inl ?_⟩
    split_ifs at hd2 <;> omega
  · obtain ⟨e, hwe⟩ := hw h3
    by_cases hfeb : m = 2
    · subst hfeb
      rw [if_pos rfl] at hd2
      by_cases h29 : d ≤ 28
      · exact ⟨by omega, by omega, Or.inl (by omega)⟩
      · split_ifs at hd2 with hle
        · refine ⟨by omega, by omega, Or.inr ⟨by omega, by omega⟩⟩
        · omega
    · have hjan : m = 1 := by omega
      subst hjan
      split_ifs at hd2 <;> omega

set_option maxHeartbeats 1000000 in
/-- The date getters invert `daysFromCivil` on every valid proleptic
Gregorian date: the model's date arithmetic is internally consistent. -/
theorem getters_daysFromCivil (y m d : Int) (hm1 : 1 ≤ m) (hm2 : m ≤ 12)
    (hd1 : 1 ≤ d) (hd2 : d ≤ monthLen y m) :
    dateYear (daysFromCivil y m d) = y ∧ dateMonth (daysFromCivil y m d) = m ∧
      dateDay (daysFromCivil y m d) = d := by
  simp only [monthLen, leapTerm] at hd2
  obtain ⟨y', era, yoe, mp, t, doy, hy', hera, hyoe, hmpE, htE, hdoyE, hz⟩ :
      ∃ y' era yoe mp t doy,
        y' = (if m ≤ 2 then y - 1 else y) ∧
        era = y' / 400 ∧ yoe = y' - era * 400 ∧
        mp = (if 2 < m then m - 3 else m + 9) ∧
        t = (153 * mp + 2) / 5 ∧ doy = t + d - 1 ∧
        daysFromCivil y m d =
          era * 146097 + (yoe * 365 + yoe / 4 - yoe / 100 + doy) - 719468 :=
    ⟨_, _, _, _, _, _, rfl, rfl, rfl, rfl, rfl, rfl, rfl⟩
  obtain ⟨doe, cen, x, hdoeE, hcenE, hxE⟩ :
      ∃ doe cen x, doe = yoe * 365 + yoe / 4 - yoe / 100 + doy ∧
        cen = yoe / 100 ∧ x = yoe - cen * 100 := ⟨_, _, _, rfl, rfl, rfl⟩
  rw [← hdoeE] at hz
  have hmpb : (2 < m ∧ mp = m - 3) ∨ (m ≤ 2 ∧ mp = m + 9) := by
    rw [hmpE]; split_ifs with h
    · exact Or.inl ⟨h, rfl⟩
    · exact Or.inr ⟨by omega, rfl⟩
  have hyy' : (m ≤ 2 ∧ y' = y - 1) ∨ (2 < m ∧ y' = y) := by
    rw [hy']; split_ifs with h
    · exact Or.inl ⟨h, rfl⟩
    · exact Or.inr ⟨by omega, rfl⟩
  clear hy' hmpE
  have ht5 : 5 * t ≤ 153 * mp + 2 ∧ 153 * mp + 2 ≤ 5 * t + 4 := by
    clear * - htE; omega
  have hyoeb : 0 ≤ yoe ∧ yoe ≤ 399 := by clear * - hera hyoe; omega
  have hcenb : 0 ≤ cen ∧ cen ≤ 3 := by clear * - hcenE hyoeb; omega
  have hxb : 0 ≤ x ∧ x ≤ 99 := by clear * - hxE hcenE hyoeb; omega
  have hxq : 0 ≤ x / 4 ∧ 4 * (x / 4) ≤ x ∧ x ≤ 4 * (x / 4) + 3 := by
    clear * - hxb; omega
  have hyw : m ≤ 2 → ∃ e, y = 400 * e + cen * 100 + x + 1 := by
    clear * - hyy' hera hyoe hcenE hxE hyoeb
    intro h
    rcases hyy' with ⟨_, hyv⟩ | ⟨hc, _⟩
    · exact ⟨era, by omega⟩
    · omega
  have hdoyb := doy_bounds m d t mp cen x y hm1 hm2 hd1 hmpb ht5.1 ht5.2
    hyw hcenb.1 hcenb.2 hxb.1 hxb.2 hd2
  rw [← hdoyE] at hdoyb
  have hdoe2 : doe = 36524 * cen + 365 * x + x / 4 + doy := by
    clear * - hdoeE hcenE hxE hyoeb; omega
  have hdoeb : 0 ≤ doe ∧ doe ≤ 146096 := by
    clear * - hdoe2 hcenb hxb hxq hdoyb; omega
  have hlen : (m = 2 ∧ d ≤ 29) ∨ ((m = 4 ∨ m = 6 ∨ m = 9 ∨ m = 11) ∧ d ≤ 30) ∨
      (m ≠ 2 ∧ ¬(m = 4 ∨ m = 6 ∨ m = 9 ∨ m = 11) ∧ d ≤ 31) := by
    clear * - hd2
    split_ifs at hd2 with h1 hleap h2
    · exact Or.inl ⟨h1, by omega⟩
    · exact Or.inl ⟨h1, by omega⟩
    · exact Or.inr (Or.inl ⟨h2, hd2⟩)
    · exact Or.inr (Or.inr ⟨h1, h2, hd2⟩)
  clear hd2
  have hleap1 : doy ≤ 364 ∨ x ≤ 98 ∨ cen = 3 := by
    clear * - hdoyb
    rcases hdoyb.2.2 with h | ⟨h1, h2⟩
    · exact Or.inl h
    · rcases h2 with h2 | h2
      · exact Or.inr (Or.inl h2)
      · exact Or.inr (Or.inr h2)
  have hleap2 : doy ≤ 364 ∨ x = 4 * (x / 4) + 3 := by
    clear * - hdoyb
    rcases hdoyb.2.2 with h | ⟨h1, h2⟩
    · exact Or.inl h
    · exact Or.inr h1
  have hE : eraOf (daysFromCivil y m d) = era ∧ doeOf (daysFromCivil y m d) = doe := by
    rw [doeOf, eraOf, hz]
    have he1 := era_extract era doe hdoeb.1 hdoeb.2
    exact ⟨he1.1, by rw [he1.1]; clear * -; omega⟩
  have hY : yoeOf (daysFromCivil y m d) = yoe := by
    rw [yoeOf, hE.2]
    rw [cen_extract doe cen x (x / 4) doy hdoe2 hcenb.1 hcenb.2 hxb.1 hxb.2
      hxq.1 hxq.2.1 hxq.2.2 hdoyb.1 hdoyb.2.1 hleap1]
    rw [x_extract doe cen x (x / 4) doy hdoe2 hxb.1 hxb.2
      hxq.1 hxq.2.1 hxq.2.2 hdoyb.1 hdoyb.2.1 hleap2]
    clear * - hcenE hxE; omega
  have hD : doyOf (daysFromCivil y m d) = doy := by
    rw [doyOf, hE.2, hY]; clear * - hdoeE; omega
  have hmpr : 0 ≤ mp ∧ mp ≤ 11 := by clear * - hmpb hm1 hm2; omega
  have hd31 : d ≤ 31 := by
    clear * - hlen
    rcases hlen with ⟨hm2', h⟩ | ⟨hmem, h⟩ | ⟨hn1, hn2, h⟩ <;> omega
  have h29 : mp = 11 → d ≤ 29 := by
    clear * - hlen hmpb hm1 hm2
    intro h11
    rcases hlen with ⟨hm2', h⟩ | ⟨hmem, h⟩ | ⟨hn1, hn2, h⟩ <;> omega
  have h30 : mp = 1 ∨ mp = 3 ∨ mp = 6 ∨ mp = 8 → d ≤ 30 := by
    clear * - hlen hmpb hm1 hm2
    intro h
    rcases hlen with ⟨hm2', hh⟩ | ⟨hmem, hh⟩ | ⟨hn1, hn2, hh⟩ <;> omega
  have hM : mpOf (daysFromCivil y m d) = mp := by
    rw [mpOf, hD]
    exact mp_extract mp t doy d hmpr.1 hmpr.2 ht5.1 ht5.2 hdoyE hd1 hd31 h29 h30
  have hmonth : dateMonth (daysFromCivil y m d) = m := by
    rw [dateMonth, hM]
    clear * - hmpb hm1 hm2
    rcases hmpb with ⟨h3, hmp'⟩ | ⟨h3, hmp'⟩
    · rw [if_pos (by omega : mp < 10)]; omega
    · rw [if_neg (by omega : ¬ mp < 10)]; omega
  refine ⟨?_, hmonth, ?_⟩
  · rw [dateYear, hmonth, hY, hE.1]
    clear * - hyy' hera hyoe hcenE hxE hm1 hm2
    rcases hyy' with ⟨hc, hyv⟩ | ⟨hc, hyv⟩
    · rw [if_pos (by omega : m ≤ 2)]; omega
    · rw [if_neg (by omega : ¬ m ≤ 2)]; omega
  · rw [dateDay, hD, hM]; clear * - hdoyE htE; omega

/- ECMAScript Date API wrappers used by shared-utils.js. -/

/-- ECMAScript MakeFullYear: integer years in [0, 99] denote 1900..1999 in the
`new Date(year, month, day)` constructor. -/
def jsMakeFullYear (y : Int) : Int := if 0 ≤ y ∧ y ≤ 99 then 1900 + y else y

/-- ECMAScript MakeDay: epoch day of (year, 0-indexed month m0, day dt), with
month overflow folded into the year and any integer day accepted. -/
def jsMakeDay (y m0 dt : Int) : Int := daysFromCivil (y + m0 / 12) (m0 % 12 + 1) dt

/-- Epoch day of `new Date(year, month0, day)` (applies the two-digit-year rule). -/
def jsNewDate (y m0 dt : Int) : Int := jsMakeDay (jsMakeFullYear y) m0 dt

/-- `date.getFullYear()` for the date z days after the epoch. -/
def jsGetFullYear (z : Int) : Int := dateYear z

/-- `date.getMonth()` (0-indexed) for the date z days after the epoch. -/
def jsGetMonth (z : Int) : Int := dateMonth z - 1

/-- `date.getDate()` for the date z days after the epoch. -/
def jsGetDate (z : Int) : Int := dateDay z

/-- `date.setDate(n)`: re-resolves the day number n in the date's current
year and month (n may be arbitrary; MakeDay normalizes it). -/
def jsSetDate (z n : Int) : Int := daysFromCivil (dateYear z) (dateMonth z) n

/-- JavaScript array indexing as used in the source's template strings:
an out-of-range index yields `undefined`, which a template renders as the
string "undefined". -/
def jsIdx (l : List String) (i : Int) : String :=
  if 0 ≤ i then l.getD i.toNat "undefined" else "undefined"

/-- Truncation toward zero of a rational (JavaScript's number-to-integer
conversion inside the `%` operator). -/
def jsTrunc (q : ℚ) : Int := if 0 ≤ q then ⌊q⌋ else ⌈q⌉

/-- JavaScript `%` on (possibly fractional) numbers: remainder with the sign
of the dividend. -/
def jsFmod (a b : ℚ) : ℚ := a - b * (jsTrunc (a / b) : ℚ)

/- The CalendarUtils object of shared-utils.js.  A JavaScript Date argument is
modelled either by its epoch-day number (functions that do date arithmetic) or
by the record of its getter values (functions that only read components). -/

/-- A normalized JavaScript Date value, seen through its getters:
`year = getFullYear()`, `month = getMonth()` (0-indexed), `day = getDate()`. -/
structure JSDate where
  year : Int
  month : Int
  day : Int

/-- Epoch day (the time value in days) of a normalized date. -/
def epochOf (dt : JSDate) : Int := daysFromCivil dt.year (dt.month + 1) dt.day

namespace CalendarUtils

/-- shared-utils.js line 236: `(year % 400 === 0) || (year % 4 === 0 && year % 100 !== 0)`.
JavaScript `%` is truncated remainder, hence `Int.tmod`. -/
def isGregorianLeapYear (year : Int) : Bool :=
  (year.tmod 400 == 0) || (year.tmod 4 == 0 && year.tmod 100 != 0)

def monthNames : List String :=
  ["January", "February", "March", "April", "May", "June",
   "July", "August", "September", "October", "November", "December"]

/- calculateEasterDate (lines 250-271), Meeus/Jones/Butcher.  The source's
sequential locals a..m are factored into named definitions computing the same
values; `Math.floor(x / k)` is `/` and `x % k` is `Int.tmod`. -/

/-- Easter variable h: `(19 * a + b - d - g + 15) % 30` with
a = year % 19, b = floor(year/100), d = floor(b/4), f = floor((b+8)/25),
g = floor((b - f + 1)/3). -/
def easterH (year : Int) : Int :=
  let a := year.tmod 19
  let b := year / 100
  let d := b / 4
  let f := (b + 8) / 25
  let g := (b - f + 1) / 3
  (19 * a + b - d - g + 15).tmod 30

/-- Easter variable l: `(32 + 2 * e + 2 * i - h - k) % 7` with e = b % 4,
c = year % 100, i = floor(c/4), k = c % 4. -/
def easterL (year : Int) : Int :=
  let b := year / 100
  let c := year.tmod 100
  let e := b.tmod 4
  let i := c / 4
  let k := c.tmod 4
  (32 + 2 * e + 2 * i - easterH year - k).tmod 7

/-- Easter variable m: `floor((a + 11 * h + 22 * l) / 451)`. -/
def easterM (year : Int) : Int :=
  (year.tmod 19 + 11 * easterH year + 22 * easterL year) / 451

/-- `month = floor((h + l - 7 * m + 114) / 31)` (line 264). -/
def easterMonth (year : Int) : Int :=
  (easterH year + easterL year - 7 * easterM year + 114) / 31

/-- `day = ((h + l - 7 * m + 114) % 31) + 1` (line 265). -/
def easterDay (year : Int) : Int :=
  (easterH year + easterL year - 7 * easterM year + 114).tmod 31 + 1

/-- Line 270: `${monthNames[month - 1]} ${day}, ${year}`. -/
def calculateEasterDate (year : Int) : String :=
  jsIdx monthNames (easterMonth year - 1) ++ " " ++ toString (easterDay year) ++
    ", " ++ toString year

/-- Lines 274-279: `[3, 6, 8, 11, 14, 17, 0].includes(year % 19)`. -/
def isHebrewLeapYear (year : Int) : Bool :=
  ([3, 6, 8, 11, 14, 17, 0] : List Int).contains (year.tmod 19)

def hebrewMonths : List String :=
  ["Nisan", "Iyar", "Sivan", "Tammuz", "Av", "Elul",
   "Tishrei", "Heshvan", "Kislev", "Tevet", "Shevat", "Adar"]

/-- The month-name index computed inside gregorianToHebrew (line 295):
`(date.getMonth() + 6) % 12`. -/
def hebrewMonthIndex (m0 : Int) : Int := (m0 + 6).tmod 12

/-- Lines 285-300: `${day} ${month} ${hebrewYear}` where
hebrewYear = year + 3760 + (getMonth() >= 9 ? 1 : 0). -/
def gregorianToHebrew (dt : JSDate) : String :=
  let hebrewYear := dt.year + 3760 + (if 9 ≤ dt.month then 1 else 0)
  let month := jsIdx hebrewMonths (hebrewMonthIndex dt.month)
  toString dt.day ++ " " ++ month ++ " " ++ toString hebrewYear

def islamicMonths : List String :=
  ["Muharram", "Safar", "Rabi\x27 al-Awwal", "Rabi\x27 al-Thani",
   "Jumada al-Awwal", "Jumada al-Thani", "Rajab", "Sha\x27ban",
   "Ramadan", "Shawwal", "Dhu al-Qi\x27dah", "Dhu al-Hijjah"]

/-- `dayOfYear` of gregorianToIslamic (line 324):
`Math.floor((date - new Date(year, 0, 0)) / 86400000)`.  Both time values are
local midnights in the fixed-offset zone modelled here, so the quotient is the
exact difference in days.  Note `new Date(year, 0, 0)` goes through
MakeFullYear, so years 0..99 denote 1900..1999. -/
def islamicDayOfYear (dt : JSDate) : Int := epochOf dt - jsNewDate dt.year 0 0

/-- The month-name index computed inside gregorianToIslamic (line 325):
`Math.floor((dayOfYear % 354) / 29.5) % 12`. -/
def islamicMonthIndex (dt : JSDate) : Int :=
  (Int.floor ((((islamicDayOfYear dt).tmod 354 : Int) : ℚ) / 29.5)).tmod 12

/-- Lines 314-330.  `islamicYear = Math.floor((year - 622) * 1.030684) + 1` is
modelled with exact rational arithmetic (the double nearest 1.030684 differs
from the literal by < 2^-52; no claim depends on this value). -/
def gregorianToIslamic (dt : JSDate) : String :=
  let islamicYear := Int.floor (((dt.year : ℚ) - 622) * 1.030684) + 1
  let month := jsIdx islamicMonths (islamicMonthIndex dt)
  let day := Int.floor (jsFmod (((islamicDayOfYear dt).tmod 354 : Int) : ℚ) 29.5) + 1
  toString day ++ " " ++ month ++ " " ++ toString islamicYear ++ " AH"

/-- Lines 332-347: anchor `new Date(2024, 2, 10)`, then
`setDate(getDate() - 11 * (gregorianYear - 2024))`. -/
def calculateRamadanStart (gregorianYear : Int) : String :=
  let baseDate := jsNewDate 2024 2 10
  let yearsDiff := gregorianYear - 2024
  let daysBack := yearsDiff * 11
  let ramadanStart := jsSetDate baseDate (jsGetDate baseDate - daysBack)
  jsIdx monthNames (jsGetMonth ramadanStart) ++ " " ++
    toString (jsGetDate ramadanStart) ++ ", " ++ toString gregorianYear

/-- Lines 349-357.  The source parses its string argument with `new Date` and
then only reads `getMonth()`; the parsed date is modelled by its getters. -/
def getSeason (dt : JSDate) : String :=
  let month := dt.month
  if 2 ≤ month ∧ month ≤ 4 then "Spring"
  else if 5 ≤ month ∧ month ≤ 7 then "Summer"
  else if 8 ≤ month ∧ month ≤ 10 then "Fall"
  else "Winter"

def hinduMonths : List String :=
  ["Chaitra", "Vaishakha", "Jyeshtha", "Ashadha",
   "Shravana", "Bhadrapada", "Ashwin", "Kartik",
   "Margashirsha", "Pausha", "Magha", "Phalguna"]

/-- The month-name index computed inside gregorianToHindu (line 372):
`(date.getMonth() + 10) % 12`. -/
def hinduMonthIndex (m0 : Int) : Int := (m0 + 10).tmod 12

/-- Lines 360-377: `${day} ${month} ${vikramYear} (Vikram Samvat)`.
(The source also computes `shakaYear = year - 78` but never uses it.) -/
def gregorianToHindu (dt : JSDate) : String :=
  let vikramYear := dt.year + 57
  let month := jsIdx hinduMonths (hinduMonthIndex dt.month)
  toString dt.day ++ " " ++ month ++ " " ++ toString vikramYear ++ " (Vikram Samvat)"

/-- Lines 379-390: base `new Date(year, 9, 15)`, offset
`Math.floor(Math.sin(year) * 15)`, then `setDate(getDate() + offset)`.
`Math.sin` is modelled by the real sine. -/
noncomputable def calculateDiwali (year : Int) : String :=
  let base := jsNewDate year 9 15
  let offset := ⌊Real.sin (year : ℝ) * 15⌋
  let base2 := jsSetDate base (jsGetDate base + offset)
  jsIdx monthNames (jsGetMonth base2) ++ " " ++ toString (jsGetDate base2) ++
    ", " ++ toString year

/-- Lines 392-402: base `new Date(year, 2, 8)`, offset
`Math.floor(Math.cos(year) * 12)`. -/
noncomputable def calculateHoli (year : Int) : String :=
  let base := jsNewDate year 2 8
  let offset := ⌊Real.cos (year : ℝ) * 12⌋
  let base2 := jsSetDate base (jsGetDate base + offset)
  jsIdx monthNames (jsGetMonth base2) ++ " " ++ toString (jsGetDate base2) ++
    ", " ++ toString year

/-- Lines 404-414: base `new Date(year, 8, 20)`, offset
`Math.floor(Math.sin(year + 1) * 10)` — note the argument `year + 1`. -/
noncomputable def calculateNavratri (year : Int) : String :=
  let base := jsNewDate year 8 20
  let offset := ⌊Real.sin ((year : ℝ) + 1) * 10⌋
  let base2 := jsSetDate base (jsGetDate base + offset)
  jsIdx monthNames (jsGetMonth base2) ++ " " ++ toString (jsGetDate base2) ++
    ", " ++ toString year

end CalendarUtils

open CalendarUtils

/- Small facts about `Int.tmod` used below. -/

theorem tmod_bounds_of_nonneg (a b : Int) (ha : 0 ≤ a) (hb : 0 < b) :
    0 ≤ a.tmod b ∧ a.tmod b ≤ b - 1 := by
  refine ⟨Int.tmod_nonneg b ha, ?_⟩
  have := Int.tmod_lt_of_pos a hb
  omega

/- ------------------------------------------------------------------ C6 -/

/-- C6: for all integer years, `isGregorianLeapYear year` is true exactly when
year is divisible by 400, or divisible by 4 and not by 100; in particular the
values at 2000, 1900, 2024 and 2023 are true, false, true, false. -/
theorem isGregorianLeapYear_spec :
    (∀ year : Int, isGregorianLeapYear year = true ↔
      (400 : Int) ∣ year ∨ ((4 : Int) ∣ year ∧ ¬ (100 : Int) ∣ year)) ∧
    isGregorianLeapYear 2000 = true ∧ isGregorianLeapYear 1900 = false ∧
    isGregorianLeapYear 2024 = true ∧ isGregorianLeapYear 2023 = false := by
  refine ⟨fun year => ?_, by decide, by decide, by decide, by decide⟩
  simp only [isGregorianLeapYear, Bool.or_eq_true, Bool.and_eq_true, beq_iff_eq,
    bne_iff_ne, ne_eq]
  rw [← Int.dvd_iff_tmod_eq_zero, ← Int.dvd_iff_tmod_eq_zero, ← Int.dvd_iff_tmod_eq_zero]

/- ------------------------------------------------------------------ C3 -/

/-- C3 counterexample: at year = -16 the 19-year periodicity claimed for all
integers fails, because JavaScript `%` returns a negative remainder (-16) that
is never a member of the positive cycle list, while year -16 + 19 = 3 is a
listed leap position. -/
theorem isHebrewLeapYear_period_counterexample :
    isHebrewLeapYear (-16 + 19) ≠ isHebrewLeapYear (-16) := by decide

/-- C3 amended: `isHebrewLeapYear` is 19-periodic on the nonnegative years. -/
theorem isHebrewLeapYear_periodic_nonneg (year : Int) (hy : 0 ≤ year) :
    isHebrewLeapYear (year + 19) = isHebrewLeapYear year := by
  have h1 : (year + 19).tmod 19 = year.tmod 19 := by
    rw [Int.tmod_eq_emod (by omega) (by norm_num), Int.tmod_eq_emod hy (by norm_num)]
    omega
  simp only [isHebrewLeapYear, h1]

theorem isHebrewLeapYear_periodic_nonneg_witness :
    isHebrewLeapYear (3 + 19) = isHebrewLeapYear 3 :=
  isHebrewLeapYear_periodic_nonneg 3 (by norm_num)

/- ------------------------------------------------------------------ C9 -/

/-- C9: the festival estimators are deterministic functions of the year: two
calls with equal year arguments produce equal output strings (the embedding
gives them no access to a clock or to mutable state). -/
theorem festival_deterministic (y1 y2 : Int) (h : y1 = y2) :
    calculateDiwali y1 = calculateDiwali y2 ∧ calculateHoli y1 = calculateHoli y2 ∧
      calculateNavratri y1 = calculateNavratri y2 := by
  subst h; exact ⟨rfl, rfl, rfl⟩

theorem festival_deterministic_witness :
    calculateDiwali 2024 = calculateDiwali 2024 ∧ calculateHoli 2024 = calculateHoli 2024 ∧
      calculateNavratri 2024 = calculateNavratri 2024 :=
  festival_deterministic 2024 2024 rfl

/- ------------------------------------------------------------------ C7 -/

/-- C7: `getSeason` returns one of the four season strings, determined solely
by the 0-indexed month: months 2-4 Spring, 5-7 Summer, 8-10 Fall, and months
0, 1, 11 Winter; any date with the same month yields the same season. -/
theorem getSeason_spec (dt : JSDate) (h0 : 0 ≤ dt.month) (h1 : dt.month ≤ 11) :
    ((2 ≤ dt.month ∧ dt.month ≤ 4) → getSeason dt = "Spring") ∧
    ((5 ≤ dt.month ∧ dt.month ≤ 7) → getSeason dt = "Summer") ∧
    ((8 ≤ dt.month ∧ dt.month ≤ 10) → getSeason dt = "Fall") ∧
    ((dt.month = 0 ∨ dt.month = 1 ∨ dt.month = 11) → getSeason dt = "Winter") ∧
    (getSeason dt = "Spring" ∨ getSeason dt = "Summer" ∨ getSeason dt = "Fall" ∨
      getSeason dt = "Winter") ∧
    (∀ dt2 : JSDate, dt2.month = dt.month → getSeason dt2 = getSeason dt) := by
  simp only [getSeason]
  refine ⟨?_, ?_, ?_, ?_, ?_, ?_⟩
  · intro h; rw [if_pos h]
  · intro h; rw [if_neg (by omega), if_pos h]
  · intro h; rw [if_neg (by omega), if_neg (by omega), if_pos h]
  · intro h; rw [if_neg (by omega), if_neg (by omega), if_neg (by omega)]
  · split_ifs <;> simp
  · intro dt2 hm; rw [hm]

theorem getSeason_spec_witness :
    ((2 ≤ (5 : Int) ∧ (5 : Int) ≤ 4) → getSeason ⟨2024, 5, 15⟩ = "Spring") ∧
    ((5 ≤ (5 : Int) ∧ (5 : Int) ≤ 7) → getSeason ⟨2024, 5, 15⟩ = "Summer") ∧
    ((8 ≤ (5 : Int) ∧ (5 : Int) ≤ 10) → getSeason ⟨2024, 5, 15⟩ = "Fall") ∧
    (((5 : Int) = 0 ∨ (5 : Int) = 1 ∨ (5 : Int) = 11) → getSeason ⟨2024, 5, 15⟩ = "Winter") ∧
    (getSeason ⟨2024, 5, 15⟩ = "Spring" ∨ getSeason ⟨2024, 5, 15⟩ = "Summer" ∨
      getSeason ⟨2024, 5, 15⟩ = "Fall" ∨ getSeason ⟨2024, 5, 15⟩ = "Winter") ∧
    (∀ dt2 : JSDate, dt2.month = JSDate.month ⟨2024, 5, 15⟩ →
      getSeason dt2 = getSeason ⟨2024, 5, 15⟩) :=
  getSeason_spec ⟨2024, 5, 15⟩ (by norm_num) (by norm_num)

/- ------------------------------------------------------------------ C4 -/

/-- C4: `gregorianToHebrew` returns "<day> <monthName> <hebrewYear>" where the
Hebrew year is year + 3760 (+1 from 0-indexed month 9 on), the month name is
entry (month + 6) mod 12 of the fixed 12-name cycle, and the day is passed
through unchanged. -/
theorem gregorianToHebrew_spec (dt : JSDate) (h0 : 0 ≤ dt.month) (h1 : dt.month ≤ 11)
    (h2 : 1 ≤ dt.day) (h3 : dt.day ≤ 31) :
    gregorianToHebrew dt =
      toString dt.day ++ " " ++ hebrewMonths.getD ((dt.month + 6) % 12).toNat "" ++ " " ++
        toString (dt.year + 3760 + if 9 ≤ dt.month then 1 else 0) := by
  have hm : (dt.month + 6).tmod 12 = (dt.month + 6) % 12 :=
    Int.tmod_eq_emod (by omega) (by norm_num)
  have hb : ((dt.month + 6) % 12).toNat < 12 := by omega
  simp only [gregorianToHebrew, hebrewMonthIndex, jsIdx, hm]
  rw [if_pos (by omega : (0 : Int) ≤ (dt.month + 6) % 12)]
  rw [List.getD_eq_getElem hebrewMonths "undefined" (by simpa using hb),
    List.getD_eq_getElem hebrewMonths "" (by simpa using hb)]

theorem gregorianToHebrew_spec_witness :
    gregorianToHebrew ⟨2024, 0, 15⟩ = "15 Tishrei 5784" := by
  rw [gregorianToHebrew_spec ⟨2024, 0, 15⟩ (by norm_num) (by norm_num) (by norm_num)
    (by norm_num)]
  decide


/- ------------------------------------------------------------------ C1 -/

/-- C1: `calculateEasterDate` reproduces the canonical Easter dates for the
reference years 2024, 2025 and 2023. -/
theorem calculateEasterDate_reference_values :
    calculateEasterDate 2024 = "March 31, 2024" ∧
    calculateEasterDate 2025 = "April 20, 2025" ∧
    calculateEasterDate 2023 = "April 9, 2023" := by
  refine ⟨?_, ?_, ?_⟩ <;> decide

/- ------------------------------------------------------------------ C10 -/

theorem easterH_bounds (year : Int) (hy : 0 ≤ year) :
    0 ≤ easterH year ∧ easterH year ≤ 29 := by
  have ha : 0 ≤ year.tmod 19 := Int.tmod_nonneg 19 hy
  have hop : 0 ≤ 19 * year.tmod 19 + year / 100 - year / 100 / 4 -
      (year / 100 - (year / 100 + 8) / 25 + 1) / 3 + 15 := by omega
  simp only [easterH]
  exact tmod_bounds_of_nonneg _ 30 hop (by norm_num)

theorem easterL_bounds (year : Int) (hy : 0 ≤ year) :
    0 ≤ easterL year ∧ easterL year ≤ 6 := by
  have hb : 0 ≤ year / 100 := by omega
  have hc : 0 ≤ year.tmod 100 := Int.tmod_nonneg 100 hy
  have he := tmod_bounds_of_nonneg (year / 100) 4 hb (by norm_num)
  have hk := tmod_bounds_of_nonneg (year.tmod 100) 4 hc (by norm_num)
  have hh := easterH_bounds year hy
  have hop : 0 ≤ 32 + 2 * (year / 100).tmod 4 + 2 * (year.tmod 100 / 4) -
      easterH year - (year.tmod 100).tmod 4 := by omega
  simp only [easterL]
  have := tmod_bounds_of_nonneg _ 7 hop (by norm_num)
  omega

theorem easterM_bounds (year : Int) (hy : 0 ≤ year) :
    0 ≤ easterM year ∧ easterM year ≤ 1 := by
  have ha := tmod_bounds_of_nonneg year 19 hy (by norm_num)
  have hh := easterH_bounds year hy
  have hl := easterL_bounds year hy
  simp only [easterM]
  omega

theorem easter_month_day_range (year : Int) (hy : 0 ≤ year) :
    (easterMonth year = 3 ∨ easterMonth year = 4) ∧
      1 ≤ easterDay year ∧ easterDay year ≤ 31 := by
  have hh := easterH_bounds year hy
  have hl := easterL_bounds year hy
  have hm := easterM_bounds year hy
  have hX : 0 ≤ easterH year + easterL year - 7 * easterM year + 114 := by omega
  have ht := tmod_bounds_of_nonneg (easterH year + easterL year - 7 * easterM year + 114)
    31 hX (by norm_num)
  simp only [easterMonth, easterDay]
  omega

/-- C10: for every nonnegative year the Easter month index is 3 or 4 and the
day is in [1,31], so the monthNames lookup is in bounds and the result names
March or April. -/
theorem easter_always_march_or_april (year : Int) (hy : 0 ≤ year) :
    (easterMonth year = 3 ∨ easterMonth year = 4) ∧
    (1 ≤ easterDay year ∧ easterDay year ≤ 31) ∧
    (jsIdx monthNames (easterMonth year - 1) = "March" ∨
      jsIdx monthNames (easterMonth year - 1) = "April") := by
  obtain ⟨hm, hd⟩ := easter_month_day_range year hy
  refine ⟨hm, hd, ?_⟩
  rcases hm with h | h <;> rw [h]
  · exact Or.inl (by decide)
  · exact Or.inr (by decide)

theorem easter_always_march_or_april_witness :
    (easterMonth 2024 = 3 ∨ easterMonth 2024 = 4) ∧
    (1 ≤ easterDay 2024 ∧ easterDay 2024 ≤ 31) ∧
    (jsIdx monthNames (easterMonth 2024 - 1) = "March" ∨
      jsIdx monthNames (easterMonth 2024 - 1) = "April") :=
  easter_always_march_or_april 2024 (by norm_num)


/- Date-shift lemmas used by the Ramadan and festival estimators. -/

theorem daysFromCivil_add (y m a k : Int) :
    daysFromCivil y m (a + k) = daysFromCivil y m a + k := by
  simp only [daysFromCivil, dfcDoy]; ring

theorem daysFromCivil_oct_sep (y : Int) : daysFromCivil y 10 0 = daysFromCivil y 9 30 := by
  simp only [daysFromCivil, dfcEra, dfcYoe, dfcDoy, dfcMp, shiftedY]
  norm_num

theorem mar_feb_core (y era yoe2 : Int) (hera : era = (y - 1) / 400)
    (hyoe : yoe2 = (y - 1) - era * 400) (lt : Int)
    (hlt : lt = if y % 4 = 0 ∧ (y % 100 ≠ 0 ∨ y % 400 = 0) then 1 else 0) :
    (y / 400) * 146097 + ((y - y / 400 * 400) * 365 + (y - y / 400 * 400) / 4
      - (y - y / 400 * 400) / 100) =
    era * 146097 + (yoe2 * 365 + yoe2 / 4 - yoe2 / 100 + 365 + lt) := by
  have hb : 0 ≤ yoe2 ∧ yoe2 ≤ 399 := by clear * - hera hyoe; omega
  by_cases hY : yoe2 ≤ 398
  · have h400 : y / 400 = era ∧ y - era * 400 = yoe2 + 1 := by
      clear * - hera hyoe hb hY; omega
    rw [h400.1, h400.2]
    have hyv : y = 400 * era + yoe2 + 1 := by clear * - hera hyoe; omega
    split_ifs at hlt with h
    · clear * - hlt hyv hb hY h; omega
    · clear * - hlt hyv hb hY h; omega
  · have h399 : yoe2 = 399 := by omega
    have h400 : y / 400 = era + 1 ∧ y - (era + 1) * 400 = 0 := by
      clear * - hera hyoe h399; omega
    rw [h400.1, h400.2]
    have hyv : y = 400 * era + 400 := by clear * - hera hyoe h399; omega
    split_ifs at hlt with h
    · clear * - hlt hyv h399 h; omega
    · clear * - hlt hyv h399 h; omega

/-- Day numbers of March roll back into February (of the same year), whose
length is 28 plus the leap term. -/
theorem daysFromCivil_mar_feb (y e : Int) :
    daysFromCivil y 3 e = daysFromCivil y 2 (e + 28 + leapTerm y) := by
  have hL : daysFromCivil y 3 e = (y / 400) * 146097 + ((y - y / 400 * 400) * 365
      + (y - y / 400 * 400) / 4 - (y - y / 400 * 400) / 100 + (e - 1)) - 719468 := by
    simp only [daysFromCivil, dfcEra, dfcYoe, dfcDoy, dfcMp, shiftedY]
    norm_num
  have hR : daysFromCivil y 2 (e + 28 + leapTerm y) = ((y - 1) / 400) * 146097 +
      (((y - 1) - (y - 1) / 400 * 400) * 365 + ((y - 1) - (y - 1) / 400 * 400) / 4
        - ((y - 1) - (y - 1) / 400 * 400) / 100 + (337 + (e + 28 + leapTerm y) - 1))
      - 719468 := by
    simp only [daysFromCivil, dfcEra, dfcYoe, dfcDoy, dfcMp, shiftedY]
    norm_num
  rw [hL, hR]
  have := mar_feb_core y ((y - 1) / 400) ((y - 1) - (y - 1) / 400 * 400) rfl rfl
    (leapTerm y) (by simp only [leapTerm])
  clear * - this
  omega

theorem leapTerm_bounds (y : Int) : 0 ≤ leapTerm y ∧ leapTerm y ≤ 1 := by
  simp only [leapTerm]; split_ifs <;> norm_num

theorem monthLen_feb (y : Int) : monthLen y 2 = 28 + leapTerm y := by
  simp only [monthLen, if_true]

/-- Month and day of "October 15 shifted by k days" for k in [-15, 15]. -/
theorem oct_shift (Y k : Int) (h1 : -15 ≤ k) (h2 : k ≤ 15) :
    dateMonth (daysFromCivil Y 10 15 + k) = (if k = -15 then 9 else 10) ∧
      dateDay (daysFromCivil Y 10 15 + k) = (if k = -15 then 30 else 15 + k) := by
  rw [show daysFromCivil Y 10 15 + k = daysFromCivil Y 10 (15 + k) from
    (daysFromCivil_add Y 10 15 k).symm]
  by_cases hk : k = -15
  · subst hk
    have h0 : daysFromCivil Y 10 (15 + (-15)) = daysFromCivil Y 9 30 := by
      rw [show (15 + (-15) : Int) = 0 by norm_num, daysFromCivil_oct_sep]
    rw [h0]
    have hg := getters_daysFromCivil Y 9 30 (by norm_num) (by norm_num) (by norm_num)
      (by simp only [monthLen]; norm_num)
    rw [hg.2.1, hg.2.2]
    norm_num
  · have hg := getters_daysFromCivil Y 10 (15 + k) (by norm_num) (by norm_num)
      (by omega) (by simp only [monthLen]; norm_num; omega)
    rw [hg.2.1, hg.2.2, if_neg hk, if_neg hk]
    exact ⟨rfl, rfl⟩

/-- Month and day of "September 20 shifted by k days" for k in [-10, 10]. -/
theorem sep_shift (Y k : Int) (h1 : -10 ≤ k) (h2 : k ≤ 10) :
    dateMonth (daysFromCivil Y 9 20 + k) = 9 ∧
      dateDay (daysFromCivil Y 9 20 + k) = 20 + k := by
  rw [show daysFromCivil Y 9 20 + k = daysFromCivil Y 9 (20 + k) from
    (daysFromCivil_add Y 9 20 k).symm]
  have hg := getters_daysFromCivil Y 9 (20 + k) (by norm_num) (by norm_num)
    (by omega) (by simp only [monthLen]; norm_num; omega)
  exact ⟨hg.2.1, hg.2.2⟩

/-- Month and day of "March 8 shifted by k days" for k in [-12, 12]; day
numbers below 1 land in February, whose length depends on the leap term. -/
theorem mar_shift (Y k : Int) (h1 : -12 ≤ k) (h2 : k ≤ 12) :
    dateMonth (daysFromCivil Y 3 8 + k) = (if 1 ≤ 8 + k then 3 else 2) ∧
      dateDay (daysFromCivil Y 3 8 + k) =
        (if 1 ≤ 8 + k then 8 + k else 36 + k + leapTerm Y) := by
  rw [show daysFromCivil Y 3 8 + k = daysFromCivil Y 3 (8 + k) from
    (daysFromCivil_add Y 3 8 k).symm]
  by_cases hk : 1 ≤ 8 + k
  · have hg := getters_daysFromCivil Y 3 (8 + k) (by norm_num) (by norm_num)
      hk (by simp only [monthLen]; norm_num; omega)
    rw [hg.2.1, hg.2.2, if_pos hk, if_pos hk]
    exact ⟨rfl, rfl⟩
  · have hlb := leapTerm_bounds Y
    rw [daysFromCivil_mar_feb Y (8 + k)]
    have hg := getters_daysFromCivil Y 2 (8 + k + 28 + leapTerm Y) (by norm_num)
      (by norm_num) (by omega) (by rw [monthLen_feb]; omega)
    rw [hg.2.1, hg.2.2, if_neg hk, if_neg hk]
    exact ⟨rfl, by omega⟩

/- ------------------------------------------------------------------ C5 -/

/-- Modelled from the spec: `estimateRamadanStart` is anchored at the fixed
reference date March 10, 2024, shifted backward by `11 * (gregorianYear -
2024)` days, and formatted as "<MonthName> <Day>, <Year>" with the input
year. -/
def specRamadanStart (gregorianYear : Int) : String :=
  let shifted := daysFromCivil 2024 3 10 - 11 * (gregorianYear - 2024)
  jsIdx monthNames (dateMonth shifted - 1) ++ " " ++ toString (dateDay shifted) ++
    ", " ++ toString gregorianYear

/-- C5: `calculateRamadanStart` returns the month name and day of the date
obtained by shifting March 10, 2024 backward by 11 * (year - 2024) days,
formatted as "<MonthName> <Day>, <Year>". -/
theorem calculateRamadanStart_spec (gregorianYear : Int) :
    calculateRamadanStart gregorianYear = specRamadanStart gregorianYear := by
  have hbase : jsNewDate 2024 2 10 = daysFromCivil 2024 3 10 := by
    simp only [jsNewDate, jsMakeDay, jsMakeFullYear]
    norm_num
  have hg : dateYear (daysFromCivil 2024 3 10) = 2024 ∧
      dateMonth (daysFromCivil 2024 3 10) = 3 ∧
      dateDay (daysFromCivil 2024 3 10) = 10 := by decide
  simp only [calculateRamadanStart, jsSetDate, jsGetDate, jsGetMonth, hbase,
    hg.1, hg.2.1, hg.2.2, specRamadanStart]
  have harg : daysFromCivil 2024 3 (10 - (gregorianYear - 2024) * 11) =
      daysFromCivil 2024 3 10 - 11 * (gregorianYear - 2024) := by
    rw [show (10 - (gregorianYear - 2024) * 11 : Int) =
      10 + (-((gregorianYear - 2024) * 11)) by ring, daysFromCivil_add]
    ring
  rw [harg]


/- ------------------------------------------------------------------ C8 -/

/-- C8 counterexample: for the valid date January 1 of year 1 (month index 0,
day 1), `new Date(year, 0, 0)` maps year 1 to 1901 (ECMAScript two-digit-year
rule), so dayOfYear is -693959 and the Islamic month index is -5, outside
[0, 11]: `months[-5]` is undefined. -/
theorem islamicMonthIndex_counterexample :
    islamicMonthIndex ⟨1, 0, 1⟩ = -5 := by
  have hdoy : islamicDayOfYear ⟨1, 0, 1⟩ = -693959 := by decide
  have htm : (-693959 : Int).tmod 354 = -119 := by decide
  have hfl : Int.floor ((-119 : ℚ) / 29.5) = -5 := by
    rw [Int.floor_eq_iff]
    constructor
    · norm_num
    · norm_num
  simp only [islamicMonthIndex, hdoy, htm]
  rw [show (((-119 : Int) : ℚ)) = (-119 : ℚ) by norm_num, hfl]
  decide

theorem daysFromCivil_feb_jan (y e : Int) :
    daysFromCivil y 2 e = daysFromCivil y 1 (e + 31) := by
  simp only [daysFromCivil, dfcEra, dfcYoe, dfcDoy, dfcMp, shiftedY]
  rw [if_pos (by norm_num : (2 : Int) ≤ 2), if_pos (by norm_num : (1 : Int) ≤ 2),
    if_neg (by norm_num : ¬ (2 : Int) < 2), if_neg (by norm_num : ¬ (2 : Int) < 1)]
  omega

theorem daysFromCivil_month_march (y m d : Int) (h3 : 3 ≤ m) :
    daysFromCivil y m d = daysFromCivil y 3 ((153 * (m - 3) + 2) / 5 + d) := by
  simp only [daysFromCivil, dfcEra, dfcYoe, dfcDoy, dfcMp, shiftedY]
  rw [if_neg (by omega : ¬ m ≤ 2), if_neg (by norm_num : ¬ (3 : Int) ≤ 2),
    if_pos (by omega : 2 < m), if_pos (by norm_num : (2 : Int) < 3)]
  omega

/-- The `dayOfYear` computed by gregorianToIslamic is at least 1 whenever the
two-digit-year rewrite does not fire. -/
theorem islamicDayOfYear_pos (dt : JSDate) (h0 : 0 ≤ dt.month) (h1 : dt.month ≤ 11)
    (hd : 1 ≤ dt.day) (hq : dt.year < 0 ∨ 100 ≤ dt.year) :
    1 ≤ islamicDayOfYear dt := by
  have hbase : jsNewDate dt.year 0 0 = daysFromCivil dt.year 1 0 := by
    simp only [jsNewDate, jsMakeDay, jsMakeFullYear]
    rw [if_neg (by omega)]
    norm_num
  simp only [islamicDayOfYear, epochOf, hbase]
  by_cases hm0 : dt.month = 0
  · rw [hm0, show (0 + 1 : Int) = 1 by norm_num,
      show daysFromCivil dt.year 1 dt.day = daysFromCivil dt.year 1 (0 + dt.day) by
        norm_num, daysFromCivil_add]
    omega
  · by_cases hm1 : dt.month = 1
    · rw [hm1, show (1 + 1 : Int) = 2 by norm_num, daysFromCivil_feb_jan,
        show daysFromCivil dt.year 1 (dt.day + 31) =
          daysFromCivil dt.year 1 (0 + (dt.day + 31)) by norm_num, daysFromCivil_add]
      omega
    · have h3 : 3 ≤ dt.month + 1 := by omega
      rw [daysFromCivil_month_march dt.year (dt.month + 1) dt.day h3,
        daysFromCivil_mar_feb, daysFromCivil_feb_jan,
        show ((153 * (dt.month + 1 - 3) + 2) / 5 + dt.day + 28 + leapTerm dt.year + 31)
          = 0 + ((153 * (dt.month + 1 - 3) + 2) / 5 + dt.day + 28 + leapTerm dt.year + 31)
          by norm_num, daysFromCivil_add]
      have hlb := leapTerm_bounds dt.year
      have htnn : 0 ≤ (153 * (dt.month + 1 - 3) + 2) / 5 := by omega
      omega

/-- C8 amended: the Hebrew and Hindu month-name indices are always in [0, 11]
for months in [0, 11]; the Islamic index is in [0, 11] for every valid date
whose year is outside the two-digit range [0, 99]. -/
theorem monthIndex_in_bounds (dt : JSDate) (h0 : 0 ≤ dt.month) (h1 : dt.month ≤ 11)
    (hd1 : 1 ≤ dt.day) (hd2 : dt.day ≤ monthLen dt.year (dt.month + 1)) :
    (0 ≤ hebrewMonthIndex dt.month ∧ hebrewMonthIndex dt.month ≤ 11) ∧
    (0 ≤ hinduMonthIndex dt.month ∧ hinduMonthIndex dt.month ≤ 11) ∧
    ((dt.year < 0 ∨ 100 ≤ dt.year) →
      0 ≤ islamicMonthIndex dt ∧ islamicMonthIndex dt ≤ 11) := by
  refine ⟨?_, ?_, ?_⟩
  · have := tmod_bounds_of_nonneg (dt.month + 6) 12 (by omega) (by norm_num)
    simp only [hebrewMonthIndex]
    omega
  · have := tmod_bounds_of_nonneg (dt.month + 10) 12 (by omega) (by norm_num)
    simp only [hinduMonthIndex]
    omega
  · intro hq
    have hpos := islamicDayOfYear_pos dt h0 h1 hd1 hq
    have hr := tmod_bounds_of_nonneg (islamicDayOfYear dt) 354 (by omega) (by norm_num)
    have hq1 : 0 ≤ Int.floor ((((islamicDayOfYear dt).tmod 354 : Int) : ℚ) / 29.5) := by
      rw [Int.floor_nonneg]
      apply div_nonneg _ (by norm_num)
      exact_mod_cast hr.1
    have hq2 : Int.floor ((((islamicDayOfYear dt).tmod 354 : Int) : ℚ) / 29.5) < 12 := by
      rw [Int.floor_lt]
      rw [div_lt_iff₀ (by norm_num : (0 : ℚ) < 29.5)]
      have : (((islamicDayOfYear dt).tmod 354 : Int) : ℚ) ≤ 353 := by
        exact_mod_cast hr.2
      norm_num
      linarith
    have := tmod_bounds_of_nonneg (Int.floor ((((islamicDayOfYear dt).tmod 354 : Int) : ℚ)
      / 29.5)) 12 hq1 (by norm_num)
    simp only [islamicMonthIndex]
    omega

theorem monthIndex_in_bounds_witness :
    (0 ≤ hebrewMonthIndex (JSDate.month ⟨2024, 9, 15⟩) ∧
      hebrewMonthIndex (JSDate.month ⟨2024, 9, 15⟩) ≤ 11) ∧
    (0 ≤ hinduMonthIndex (JSDate.month ⟨2024, 9, 15⟩) ∧
      hinduMonthIndex (JSDate.month ⟨2024, 9, 15⟩) ≤ 11) ∧
    ((JSDate.year ⟨2024, 9, 15⟩ < 0 ∨ 100 ≤ JSDate.year ⟨2024, 9, 15⟩) →
      0 ≤ islamicMonthIndex ⟨2024, 9, 15⟩ ∧ islamicMonthIndex ⟨2024, 9, 15⟩ ≤ 11) :=
  monthIndex_in_bounds ⟨2024, 9, 15⟩ (by norm_num) (by norm_num) (by norm_num)
    (by simp only [monthLen]; norm_num)


/- ------------------------------------------------------------------ C2 -/

/-- Modelled from the spec: Diwali is October 15 of the year shifted by
`floor(sin(year) * 15)` days, formatted "<MonthName> <Day>, <Year>". -/
noncomputable def specDiwali (year : Int) : String :=
  let shifted := daysFromCivil year 10 15 + ⌊Real.sin (year : ℝ) * 15⌋
  jsIdx monthNames (dateMonth shifted - 1) ++ " " ++ toString (dateDay shifted) ++
    ", " ++ toString year

/-- Modelled from the spec: Holi is March 8 of the year shifted by
`floor(cos(year) * 12)` days. -/
noncomputable def specHoli (year : Int) : String :=
  let shifted := daysFromCivil year 3 8 + ⌊Real.cos (year : ℝ) * 12⌋
  jsIdx monthNames (dateMonth shifted - 1) ++ " " ++ toString (dateDay shifted) ++
    ", " ++ toString year

/-- The Navratri estimator as the claim states it: September 20 of the year
shifted by `floor(sin(year) * 10)` days (the code actually uses
`sin(year + 1)`). -/
noncomputable def specNavratriClaim (year : Int) : String :=
  let shifted := daysFromCivil year 9 20 + ⌊Real.sin (year : ℝ) * 10⌋
  jsIdx monthNames (dateMonth shifted - 1) ++ " " ++ toString (dateDay shifted) ++
    ", " ++ toString year

/-- Modelled from the spec, amended to the code: Navratri is September 20 of
the year shifted by `floor(sin(year + 1) * 10)` days. -/
noncomputable def specNavratri (year : Int) : String :=
  let shifted := daysFromCivil year 9 20 + ⌊Real.sin ((year : ℝ) + 1) * 10⌋
  jsIdx monthNames (dateMonth shifted - 1) ++ " " ++ toString (dateDay shifted) ++
    ", " ++ toString year

theorem floor_mul_bounds (x c : ℝ) (K : Int) (hc : c = (K : ℝ)) (hK : 0 ≤ K)
    (h1 : -1 ≤ x) (h2 : x ≤ 1) : -K ≤ ⌊x * c⌋ ∧ ⌊x * c⌋ ≤ K := by
  subst hc
  have hK' : (0 : ℝ) ≤ (K : ℝ) := by exact_mod_cast hK
  constructor
  · apply Int.le_floor.mpr
    push_cast
    nlinarith
  · calc ⌊x * (K : ℝ)⌋ ≤ ⌊((K : Int) : ℝ)⌋ := Int.floor_le_floor (by nlinarith)
    _ = K := Int.floor_intCast K

theorem calculateDiwali_eq (year : Int) : calculateDiwali year = specDiwali year := by
  obtain ⟨k, hk⟩ : ∃ k, k = ⌊Real.sin (year : ℝ) * 15⌋ := ⟨_, rfl⟩
  have hkb := floor_mul_bounds (Real.sin (year : ℝ)) 15 15 (by norm_num) (by norm_num)
    (Real.neg_one_le_sin _) (Real.sin_le_one _)
  rw [← hk] at hkb
  have hY : jsNewDate year 9 15 = daysFromCivil (jsMakeFullYear year) 10 15 := by
    simp only [jsNewDate, jsMakeDay]
    norm_num
  have hbase := getters_daysFromCivil (jsMakeFullYear year) 10 15 (by norm_num)
    (by norm_num) (by norm_num) (by simp only [monthLen]; norm_num)
  simp only [calculateDiwali, specDiwali, hY, jsSetDate, jsGetDate, jsGetMonth, ← hk,
    hbase.1, hbase.2.1, hbase.2.2]
  rw [show daysFromCivil (jsMakeFullYear year) 10 (15 + k)
    = daysFromCivil (jsMakeFullYear year) 10 15 + k from
      daysFromCivil_add (jsMakeFullYear year) 10 15 k]
  have hL := oct_shift (jsMakeFullYear year) k hkb.1 hkb.2
  have hR := oct_shift year k hkb.1 hkb.2
  rw [hL.1, hL.2, hR.1, hR.2]

theorem calculateNavratri_eq (year : Int) : calculateNavratri year = specNavratri year := by
  obtain ⟨k, hk⟩ : ∃ k, k = ⌊Real.sin ((year : ℝ) + 1) * 10⌋ := ⟨_, rfl⟩
  have hkb := floor_mul_bounds (Real.sin ((year : ℝ) + 1)) 10 10 (by norm_num) (by norm_num)
    (Real.neg_one_le_sin _) (Real.sin_le_one _)
  rw [← hk] at hkb
  have hY : jsNewDate year 8 20 = daysFromCivil (jsMakeFullYear year) 9 20 := by
    simp only [jsNewDate, jsMakeDay]
    norm_num
  have hbase := getters_daysFromCivil (jsMakeFullYear year) 9 20 (by norm_num)
    (by norm_num) (by norm_num) (by simp only [monthLen]; norm_num)
  simp only [calculateNavratri, specNavratri, hY, jsSetDate, jsGetDate, jsGetMonth, ← hk,
    hbase.1, hbase.2.1, hbase.2.2]
  rw [show daysFromCivil (jsMakeFullYear year) 9 (20 + k)
    = daysFromCivil (jsMakeFullYear year) 9 20 + k from
      daysFromCivil_add (jsMakeFullYear year) 9 20 k]
  have hL := sep_shift (jsMakeFullYear year) k hkb.1 hkb.2
  have hR := sep_shift year k hkb.1 hkb.2
  rw [hL.1, hL.2, hR.1, hR.2]

theorem calculateHoli_eq (year : Int) : calculateHoli year = specHoli year := by
  obtain ⟨k, hk⟩ : ∃ k, k = ⌊Real.cos (year : ℝ) * 12⌋ := ⟨_, rfl⟩
  have hkb := floor_mul_bounds (Real.cos (year : ℝ)) 12 12 (by norm_num) (by norm_num)
    (Real.neg_one_le_cos _) (Real.cos_le_one _)
  rw [← hk] at hkb
  have hY : jsNewDate year 2 8 = daysFromCivil (jsMakeFullYear year) 3 8 := by
    simp only [jsNewDate, jsMakeDay]
    norm_num
  have hbase := getters_daysFromCivil (jsMakeFullYear year) 3 8 (by norm_num)
    (by norm_num) (by norm_num) (by simp only [monthLen]; norm_num)
  simp only [calculateHoli, specHoli, hY, jsSetDate, jsGetDate, jsGetMonth, ← hk,
    hbase.1, hbase.2.1, hbase.2.2]
  rw [show daysFromCivil (jsMakeFullYear year) 3 (8 + k)
    = daysFromCivil (jsMakeFullYear year) 3 8 + k from
      daysFromCivil_add (jsMakeFullYear year) 3 8 k]
  have hL := mar_shift (jsMakeFullYear year) k hkb.1 hkb.2
  have hR := mar_shift year k hkb.1 hkb.2
  rw [hL.1, hL.2, hR.1, hR.2]
  by_cases hk1 : 1 ≤ 8 + k
  · simp only [if_pos hk1]
  · simp only [if_neg hk1]
    by_cases hq : 0 ≤ year ∧ year ≤ 99
    · have hy0 : year ≠ 0 := by
        intro h0
        subst h0
        have hc0 : Real.cos ((0 : Int) : ℝ) = 1 := by
          norm_num [Real.cos_zero]
        have hk12 : k = 12 := by
          rw [hk, hc0]
          norm_num
        omega
      have hfq : jsMakeFullYear year = 1900 + year := by
        simp only [jsMakeFullYear, if_pos hq]
      have hlt : leapTerm (1900 + year) = leapTerm year := by
        simp only [leapTerm]
        have hiff : ((1900 + year) % 4 = 0 ∧ ((1900 + year) % 100 ≠ 0 ∨
            (1900 + year) % 400 = 0)) ↔
            (year % 4 = 0 ∧ (year % 100 ≠ 0 ∨ year % 400 = 0)) := by
          have hy1 : 1 ≤ year := by omega
          have hy99 : year ≤ 99 := hq.2
          clear * - hy1 hy99
          omega
        rw [if_congr hiff rfl rfl]
      rw [hfq, hlt]
    · rw [show jsMakeFullYear year = year from by simp only [jsMakeFullYear, if_neg hq]]

theorem pi644_bounds : 2023.185248 < 644 * Real.pi ∧ 644 * Real.pi < 2023.185892 := by
  have h1 := Real.pi_gt_d6
  have h2 := Real.pi_lt_d6
  constructor <;> nlinarith

theorem sin_2024_bounds : 0.7 ≤ Real.sin 2024 ∧ Real.sin 2024 < 0.8 := by
  obtain ⟨hp1, hp2⟩ := pi644_bounds
  have hx : Real.sin 2024 = Real.sin (2024 - 644 * Real.pi) := by
    have h := Real.sin_add_int_mul_two_pi (2024 - 644 * Real.pi) 322
    rw [show (2024 - 644 * Real.pi) + (322 : ℤ) * (2 * Real.pi) = 2024 by push_cast; ring] at h
    exact h
  have hx1 : (0.814108 : ℝ) < 2024 - 644 * Real.pi := by linarith
  have hx2 : (2024 : ℝ) - 644 * Real.pi < 0.814752 := by linarith
  have hx0 : (0 : ℝ) ≤ 2024 - 644 * Real.pi := by linarith
  have hxa : |(2024 : ℝ) - 644 * Real.pi| ≤ 1 := by
    rw [abs_le]
    constructor <;> linarith
  have hb := Real.sin_bound hxa
  rw [abs_le, abs_of_nonneg hx0] at hb
  have h3u : ((2024 : ℝ) - 644 * Real.pi) ^ 3 ≤ 0.5408494 := by
    calc ((2024 : ℝ) - 644 * Real.pi) ^ 3 ≤ (0.814752 : ℝ) ^ 3 :=
      pow_le_pow_left₀ hx0 (le_of_lt hx2) 3
    _ ≤ 0.5408494 := by norm_num
  have h3l : (0.53956 : ℝ) ≤ ((2024 : ℝ) - 644 * Real.pi) ^ 3 := by
    calc (0.53956 : ℝ) ≤ (0.814108 : ℝ) ^ 3 := by norm_num
    _ ≤ ((2024 : ℝ) - 644 * Real.pi) ^ 3 := pow_le_pow_left₀ (by norm_num) (le_of_lt hx1) 3
  have h4u : ((2024 : ℝ) - 644 * Real.pi) ^ 4 ≤ 0.4406581 := by
    calc ((2024 : ℝ) - 644 * Real.pi) ^ 4 ≤ (0.814752 : ℝ) ^ 4 :=
      pow_le_pow_left₀ hx0 (le_of_lt hx2) 4
    _ ≤ 0.4406581 := by norm_num
  have h4l : (0 : ℝ) ≤ ((2024 : ℝ) - 644 * Real.pi) ^ 4 := by positivity
  rw [hx]
  constructor
  · linarith [hb.1]
  · linarith [hb.2]

theorem sin_2025_bounds : 0.9 ≤ Real.sin 2025 ∧ Real.sin 2025 < 1 := by
  obtain ⟨hp1, hp2⟩ := pi644_bounds
  have hx : Real.sin 2025 = Real.sin (2025 - 644 * Real.pi) := by
    have h := Real.sin_add_int_mul_two_pi (2025 - 644 * Real.pi) 322
    rw [show (2025 - 644 * Real.pi) + (322 : ℤ) * (2 * Real.pi) = 2025 by push_cast; ring] at h
    exact h
  have hcs : Real.sin ((2025 : ℝ) - 644 * Real.pi)
      = Real.cos (Real.pi / 2 - ((2025 : ℝ) - 644 * Real.pi)) :=
    (Real.cos_pi_div_two_sub _).symm
  have hu1 : (-0.243956 : ℝ) < Real.pi / 2 - ((2025 : ℝ) - 644 * Real.pi) := by linarith
  have hu2 : Real.pi / 2 - ((2025 : ℝ) - 644 * Real.pi) < -0.2433115 := by linarith
  have hu0 : Real.pi / 2 - ((2025 : ℝ) - 644 * Real.pi) ≤ 0 := by linarith
  have hxa : |Real.pi / 2 - ((2025 : ℝ) - 644 * Real.pi)| ≤ 1 := by
    rw [abs_le]
    constructor <;> linarith
  have hb := Real.cos_bound hxa
  rw [abs_le, abs_of_nonpos hu0] at hb
  have hnu1 : (0.2433115 : ℝ) < -(Real.pi / 2 - ((2025 : ℝ) - 644 * Real.pi)) := by linarith
  have hnu2 : -(Real.pi / 2 - ((2025 : ℝ) - 644 * Real.pi)) < 0.243956 := by linarith
  have h2u : (Real.pi / 2 - ((2025 : ℝ) - 644 * Real.pi)) ^ 2 ≤ 0.05951454 := by
    have : (Real.pi / 2 - ((2025 : ℝ) - 644 * Real.pi)) ^ 2
        = (-(Real.pi / 2 - ((2025 : ℝ) - 644 * Real.pi))) ^ 2 := by ring
    rw [this]
    calc (-(Real.pi / 2 - ((2025 : ℝ) - 644 * Real.pi))) ^ 2 ≤ (0.243956 : ℝ) ^ 2 :=
      pow_le_pow_left₀ (by linarith) (le_of_lt hnu2) 2
    _ ≤ 0.05951454 := by norm_num
  have h2l : (0.0592 : ℝ) ≤ (Real.pi / 2 - ((2025 : ℝ) - 644 * Real.pi)) ^ 2 := by
    have : (Real.pi / 2 - ((2025 : ℝ) - 644 * Real.pi)) ^ 2
        = (-(Real.pi / 2 - ((2025 : ℝ) - 644 * Real.pi))) ^ 2 := by ring
    rw [this]
    calc (0.0592 : ℝ) ≤ (0.2433115 : ℝ) ^ 2 := by norm_num
    _ ≤ (-(Real.pi / 2 - ((2025 : ℝ) - 644 * Real.pi))) ^ 2 :=
      pow_le_pow_left₀ (by norm_num) (le_of_lt hnu1) 2
  have h4u : (Real.pi / 2 - ((2025 : ℝ) - 644 * Real.pi)) ^ 4 ≤ 0.003542 := by
    have : (Real.pi / 2 - ((2025 : ℝ) - 644 * Real.pi)) ^ 4
        = (-(Real.pi / 2 - ((2025 : ℝ) - 644 * Real.pi))) ^ 4 := by ring
    rw [this]
    calc (-(Real.pi / 2 - ((2025 : ℝ) - 644 * Real.pi))) ^ 4 ≤ (0.243956 : ℝ) ^ 4 :=
      pow_le_pow_left₀ (by linarith) (le_of_lt hnu2) 4
    _ ≤ 0.003542 := by norm_num
  have h4l : (0 : ℝ) ≤ (Real.pi / 2 - ((2025 : ℝ) - 644 * Real.pi)) ^ 4 := by positivity
  rw [hx, hcs]
  constructor
  · linarith [hb.1]
  · linarith [hb.2]

theorem floor_sin2024_mul10 : ⌊Real.sin 2024 * 10⌋ = (7 : ℤ) := by
  obtain ⟨h1, h2⟩ := sin_2024_bounds
  rw [Int.floor_eq_iff]
  constructor
  · push_cast
    linarith
  · push_cast
    linarith

theorem floor_sin2025_mul10 : ⌊Real.sin 2025 * 10⌋ = (9 : ℤ) := by
  obtain ⟨h1, h2⟩ := sin_2025_bounds
  rw [Int.floor_eq_iff]
  constructor
  · push_cast
    linarith
  · push_cast
    linarith

theorem calculateNavratri_counterexample :
    calculateNavratri 2024 ≠ specNavratriClaim 2024 := by
  have h9 : ⌊Real.sin (((2024 : Int) : ℝ) + 1) * 10⌋ = (9 : ℤ) := by
    rw [show (((2024 : Int) : ℝ) + 1) = (2025 : ℝ) by norm_num]
    exact floor_sin2025_mul10
  have h7 : ⌊Real.sin ((2024 : Int) : ℝ) * 10⌋ = (7 : ℤ) := by
    rw [show ((2024 : Int) : ℝ) = (2024 : ℝ) by norm_num]
    exact floor_sin2024_mul10
  have hL : calculateNavratri 2024 = "September 29, 2024" := by
    simp only [calculateNavratri, jsNewDate, jsMakeDay, jsMakeFullYear, jsSetDate,
      jsGetDate, jsGetMonth, h9]
    decide
  have hR : specNavratriClaim 2024 = "September 27, 2024" := by
    simp only [specNavratriClaim, h7]
    decide
  rw [hL, hR]
  decide

/-- C2: each festival estimator is the fixed anchor date of the year shifted by a
sinusoidal offset: Diwali is October 15 plus floor(sin(year) * 15) days, Holi is
March 8 plus floor(cos(year) * 12) days, and Navratri is September 20 plus
floor(sin(year + 1) * 10) days (amended: the spec claims floor(sin(year) * 10)
for Navratri, but the code uses sin(year + 1); see
calculateNavratri_counterexample). -/
theorem festival_offsets_match_spec (year : Int) :
    calculateDiwali year = specDiwali year ∧ calculateHoli year = specHoli year ∧
      calculateNavratri year = specNavratri year :=
  ⟨calculateDiwali_eq year, calculateHoli_eq year, calculateNavratri_eq year⟩
